import Mathlib

/-!
Verification development for the tempo-edf tray application (main.go).

The embedding models the refresh/cache engine of the program:

* the TTL cache (`cache` map of `cacheEntry`, guarded by `cacheMu`),
* the generic `fetch[T]` function (cache lookup, HTTP request, JSON
  decode, cache write),
* the refresh orchestrator `updateData` with its two locked units of
  work `updateColors` and `updateCurrentTarif`,
* `codeToColor`, the JSON response shapes `TempoResponse` and
  `NowResponse`,
* the midnight scheduler wait computation, and
* the icon resolution `loadIcon` / `updateIconBasedOnColor`.

Time is modelled as seconds (an `Int`); `time.Now().Before(e)` is the
strict order `now < e`.  Raw response bodies are a type parameter `B`
(the Go code uses byte slices and is generic in the decoded type `T`
via `json.Unmarshal`); for concrete scenarios `B` is instantiated with
a small JSON value type.  The Go `float64` tariff is modelled as `Rat`:
the program only ever stores and compares tariffs, it never computes
with them.
-/

namespace TempoEdf

/-- An entry of the TTL cache: raw body plus expiry instant
(Go struct `cacheEntry` with fields `data`, `expires`). -/
structure CacheEntry (B : Type) where
  data    : B
  expires : Int
deriving DecidableEq, Repr

/-- The cache map `cache : map[string]*cacheEntry`, modelled as an
association list; a `put` prepends, shadowing any earlier entry, which
gives the same `lookup` observations as overwriting in the Go map. -/
def Cache (B : Type) : Type := List (String × CacheEntry B)

instance (B : Type) [DecidableEq B] : DecidableEq (Cache B) := by
  unfold Cache; infer_instance

/-- The empty cache (initial value of the global `cache`). -/
def Cache.empty (B : Type) : Cache B := []

/-- Cache lookup as performed at the top of `fetch`:
`entry, exists := cache[url]` followed by
`exists && time.Now().Before(entry.expires)`.  Returns the cached raw
body on a hit, `none` on a miss (absent or expired).  It never mutates
the cache. -/
def cacheGet {B : Type} (c : Cache B) (url : String) (now : Int) : Option B :=
  match c.lookup url with
  | some e => if now < e.expires then some e.data else none
  | none => none

/-- Cache write as performed at the bottom of `fetch`: the entry for
`url` is set to the raw body with `expires` equal to
`time.Now().Add(config.CacheTTL)`, that is `now + ttl`.  Unconditional
overwrite. -/
def cachePut {B : Type} (c : Cache B) (url : String) (body : B) (now ttl : Int) : Cache B :=
  (url, ⟨body, now + ttl⟩) :: c

/-- The distinct error exits of `fetch`, in source order: decode
failure of a cached body, transport error from `httpClient.Get`,
non-200 status, body read failure, decode failure of a fresh body. -/
inductive FetchError where
  | decodeCache
  | transport
  | status
  | readBody
  | decodeBody
deriving DecidableEq, Repr

/-- Outcome of the network interaction of one `fetch` call:
`httpClient.Get` fails, or it returns a status and `io.ReadAll` fails,
or it returns a status and a fully read raw body. -/
inductive NetOutcome (B : Type) where
  | transportError
  | readError (statusCode : Nat)
  | success (statusCode : Nat) (body : B)
deriving DecidableEq, Repr

/-- The generic `fetch[T](url string) (T, error)` of main.go, with the
decoding function (`json.Unmarshal` into `T`) passed explicitly, the
network modelled by a `NetOutcome`, and the two `time.Now()` calls of
one invocation collapsed to the single instant `now`.  Returns the
result and the cache left behind.  Control flow follows the source:
cache hit → decode (no network); miss → transport error check, status
check, body read, decode, and only then the cache write. -/
def fetch {B T : Type} (decode : B → Option T) (net : NetOutcome B)
    (now ttl : Int) (c : Cache B) (url : String) :
    Except FetchError T × Cache B :=
  match cacheGet c url now with
  | some data =>
    match decode data with
    | some result => (.ok result, c)
    | none => (.error .decodeCache, c)
  | none =>
    match net with
    | .transportError => (.error .transport, c)
    | .readError statusCode =>
      if statusCode ≠ 200 then (.error .status, c)
      else (.error .readBody, c)
    | .success statusCode body =>
      if statusCode ≠ 200 then (.error .status, c)
      else
        match decode body with
        | some result => (.ok result, cachePut c url body now ttl)
        | none => (.error .decodeBody, c)

/-- The shared application state (Go struct `Data`, the single global
`currentData`).  `CurrentTarif` is `float64` in Go, modelled as `Rat`;
`LastUpdated` is declared in the source but never assigned. -/
structure Data where
  CurrentTarif  : Rat
  TarifLib      : String
  TodayColor    : String
  TomorrowColor : String
  LastUpdated   : Int
deriving DecidableEq, Repr

/-- The zero value of `Data` the global `currentData` starts from. -/
def Data.initial : Data :=
  { CurrentTarif := 0, TarifLib := "", TodayColor := "", TomorrowColor := "", LastUpdated := 0 }

/-- The decoded shape of the Tempo day endpoints (Go struct
`TempoResponse` with JSON keys dateJour, codeJour, periode). -/
structure TempoResponse where
  DateJour : String
  CodeJour : Int
  Periode  : String
deriving DecidableEq, Repr

/-- The decoded shape of the now endpoint (Go struct `NowResponse`). -/
structure NowResponse where
  ApplicableIn : Int
  CodeCouleur  : Int
  CodeHoraire  : Int
  TarifKwh     : Rat
  LibTarif     : String
deriving DecidableEq, Repr

/-- `codeToColor` of main.go: 1 → BLEU, 2 → BLANC, 3 → ROUGE,
anything else → INCONNU. -/
def codeToColor (code : Int) : String :=
  if code = 1 then "BLEU"
  else if code = 2 then "BLANC"
  else if code = 3 then "ROUGE"
  else "INCONNU"

/-- `updateColors` at the level of fetch outcomes: the body of the
function between `dataMaj.Lock()` and `dataMaj.Unlock()`, with the two
`fetch[TempoResponse]` results passed in.  On a failed today fetch it
sets `TodayColor = "ERREUR"` and returns at once (the tomorrow fetch is
the later statement of the function body, so it is skipped); on a
failed tomorrow fetch it sets `TomorrowColor = "ERREUR"`. -/
def updateColors (todayR tomorrowR : Except FetchError TempoResponse) (d : Data) : Data :=
  match todayR with
  | .error _ => { d with TodayColor := "ERREUR" }
  | .ok today =>
    let d₁ := { d with TodayColor := codeToColor today.CodeJour }
    match tomorrowR with
    | .error _ => { d₁ with TomorrowColor := "ERREUR" }
    | .ok tomorrow => { d₁ with TomorrowColor := codeToColor tomorrow.CodeJour }

/-- `updateCurrentTarif` at the level of its fetch outcome: on failure
`CurrentTarif = 0` and `TarifLib = "Erreur"`, on success the values of
the `NowResponse`. -/
def updateCurrentTarif (nowR : Except FetchError NowResponse) (d : Data) : Data :=
  match nowR with
  | .error _ => { d with CurrentTarif := 0, TarifLib := "Erreur" }
  | .ok n => { d with CurrentTarif := n.TarifKwh, TarifLib := n.LibTarif }

/-! ### JSON bodies and decoding

The remote API returns small flat JSON objects.  A raw body is
modelled as either a flat object (a list of key/value pairs with
numeric or string values) or some other JSON document; this is the
instantiation of the body parameter `B` used for concrete scenarios.
`json.Unmarshal` into a Go struct leaves a missing field at its zero
value, and fails on a value of the wrong type. -/

/-- A primitive JSON value: a number or a string. -/
inductive JVal where
  | num (q : Rat)
  | str (s : String)
deriving DecidableEq, Repr

/-- A raw JSON body: a flat object, or any other document (on which
decoding into the response structs fails). -/
inductive Json where
  | obj (fields : List (String × JVal))
  | other
deriving DecidableEq, Repr

/-- Reading an `int`-typed struct field: missing → 0 (Go zero value),
integral number → its value, fractional number or string → decode
error. -/
def getIntField (fields : List (String × JVal)) (key : String) : Option Int :=
  match fields.lookup key with
  | none => some 0
  | some (.num q) => if q.den = 1 then some q.num else none
  | some (.str _) => none

/-- Reading a `string`-typed struct field: missing → "" (Go zero
value), string → its value, number → decode error. -/
def getStrField (fields : List (String × JVal)) (key : String) : Option String :=
  match fields.lookup key with
  | none => some ""
  | some (.str s) => some s
  | some (.num _) => none

/-- `json.Unmarshal` of a raw body into `TempoResponse`. -/
def decodeTempoResponse (j : Json) : Option TempoResponse :=
  match j with
  | .obj fields => do
    let dateJour ← getStrField fields "dateJour"
    let codeJour ← getIntField fields "codeJour"
    let periode ← getStrField fields "periode"
    some ⟨dateJour, codeJour, periode⟩
  | .other => none

/-- `defaultAPIURL` of main.go. -/
def defaultAPIURL : String := "https://www.api-couleur-tempo.fr/api"

/-- The URL of the today query built in `updateColors`. -/
def todayURL : String := defaultAPIURL ++ "/jourTempo/today"

/-- The URL of the tomorrow query built in `updateColors`. -/
def tomorrowURL : String := defaultAPIURL ++ "/jourTempo/tomorrow"

/-- The URL of the tariff query built in `updateCurrentTarif`. -/
def nowURL : String := defaultAPIURL ++ "/now"

/-- `updateColors` with the cache passed through its two `fetch`
calls: first the today query, and only if it succeeded the tomorrow
query (the early `return` of the source).  The network outcomes of the
two possible requests are given per query. -/
def updateColorsRun (netToday netTomorrow : NetOutcome Json) (now ttl : Int)
    (c : Cache Json) (d : Data) : Data × Cache Json :=
  match fetch decodeTempoResponse netToday now ttl c todayURL with
  | (.error _, c₁) => ({ d with TodayColor := "ERREUR" }, c₁)
  | (.ok today, c₁) =>
    let d₁ := { d with TodayColor := codeToColor today.CodeJour }
    match fetch decodeTempoResponse netTomorrow now ttl c₁ tomorrowURL with
    | (.error _, c₂) => ({ d₁ with TomorrowColor := "ERREUR" }, c₂)
    | (.ok tomorrow, c₂) => ({ d₁ with TomorrowColor := codeToColor tomorrow.CodeJour }, c₂)

/-! ### The refresh orchestrator `updateData`

`updateData` launches two goroutines (one running `updateColors`, one
running `updateCurrentTarif`), each of which acquires the single
exclusive lock `dataMaj` for its whole body, and joins them with a
`sync.WaitGroup` of count 2.  Because each unit holds `dataMaj` for
its entire body, an execution is an interleaving of the two bodies as
atomic steps; the model below is a step machine over which unit has
already run. -/

/-- Progress of one launched unit of work: not yet run to completion
(`wg.Done` pending) or finished. -/
inductive GoState where
  | pending
  | finished
deriving DecidableEq, Repr

/-- State of one `updateData` invocation: progress of the two
goroutines plus the shared `currentData`. -/
structure RunState where
  colors : GoState
  tarif  : GoState
  d      : Data
deriving DecidableEq, Repr

/-- The state in which `updateData` starts: both units launched and
pending. -/
def RunState.init (d : Data) : RunState := ⟨.pending, .pending, d⟩

/-- The colors goroutine takes the `dataMaj` lock, runs its body and
calls `wg.Done`; enabled only while it has not finished. -/
def stepColors (todayR tomorrowR : Except FetchError TempoResponse)
    (s : RunState) : Option RunState :=
  match s.colors with
  | .pending => some { s with colors := .finished, d := updateColors todayR tomorrowR s.d }
  | .finished => none

/-- The tariff goroutine takes the `dataMaj` lock, runs its body and
calls `wg.Done`; enabled only while it has not finished. -/
def stepTarif (nowR : Except FetchError NowResponse)
    (s : RunState) : Option RunState :=
  match s.tarif with
  | .pending => some { s with tarif := .finished, d := updateCurrentTarif nowR s.d }
  | .finished => none

/-- `wg.Wait()` returns exactly when both launched units have called
`wg.Done`. -/
def wgDone (s : RunState) : Bool :=
  s.colors = GoState.finished ∧ s.tarif = GoState.finished

/-- One scheduling choice: `true` attempts the colors unit, `false`
the tariff unit. -/
def stepChoice (todayR tomorrowR : Except FetchError TempoResponse)
    (nowR : Except FetchError NowResponse) (choice : Bool)
    (s : RunState) : Option RunState :=
  if choice then stepColors todayR tomorrowR s else stepTarif nowR s

/-- The shared state `updateData` leaves behind under a given
interleaving: `true` schedules the colors unit first.  Both
interleavings run both bodies exactly once. -/
def updateData (colorsFirst : Bool)
    (todayR tomorrowR : Except FetchError TempoResponse)
    (nowR : Except FetchError NowResponse) (d : Data) : Data :=
  if colorsFirst then updateCurrentTarif nowR (updateColors todayR tomorrowR d)
  else updateColors todayR tomorrowR (updateCurrentTarif nowR d)

/-! ### The midnight scheduler

`scheduleMidnightNotification` computes
`nextMidnight := time.Date(now.Year(), now.Month(), now.Day()+1, 0, 0, 0, 0, now.Location())`
and sleeps for `nextMidnight.Sub(now)`.  Local civil time is modelled
(absent DST changes) as a day number plus seconds elapsed since that
local midnight, with 86400 seconds per day. -/

/-- The number of seconds of one civil day. -/
def secondsPerDay : Int := 86400

/-- An instant of local civil time: day number and seconds since the
local midnight of that day (valid when `sod < 86400`). -/
structure LocalTime where
  day : Int
  sod : Int
deriving DecidableEq, Repr

/-- The instant as seconds on an absolute axis. -/
def LocalTime.toSeconds (t : LocalTime) : Int :=
  t.day * secondsPerDay + t.sod

/-- `time.Date(now.Year(), now.Month(), now.Day()+1, 0, 0, 0, 0, loc)`:
midnight of the next civil day. -/
def nextMidnight (t : LocalTime) : LocalTime :=
  ⟨t.day + 1, 0⟩

/-- `duration := nextMidnight.Sub(now)`, the wait recomputed from the
current wall-clock time on each cycle of the scheduler loop. -/
def waitDuration (t : LocalTime) : Int :=
  (nextMidnight t).toSeconds - t.toSeconds

/-! ### Icon resolution

`loadIcon` maps the current color name to the icon bytes; the three
globals `icnBlanc`, `icnRouge`, `icnBleu` are loaded at startup by
`mustAsset`, which panics on a missing or empty asset, so they are
nonempty byte slices.  The filesystem fallback of `loadIcon` (three
candidate asset paths, accepted when readable and longer than 100
bytes) is modelled as a function from the lowercased color key to an
optional byte slice. -/

/-- A whitespace character as trimmed by `strings.TrimSpace` (the
ASCII cases, which are the only ones color names can contain). -/
def isSpaceChar (c : Char) : Bool :=
  c = ' ' ∨ c = '\t' ∨ c = '\n' ∨ c = '\r'

/-- `strings.TrimSpace`: drop leading and trailing whitespace. -/
def trimSpace (s : String) : String :=
  ⟨((s.data.dropWhile isSpaceChar).reverse.dropWhile isSpaceChar).reverse⟩

/-- `strings.ToLower`: lowercase every character. -/
def toLowerStr (s : String) : String :=
  ⟨s.data.map Char.toLower⟩

/-- The three icon byte slices loaded by `init` via `mustAsset`. -/
structure Icons where
  icnBlanc : List Nat
  icnRouge : List Nat
  icnBleu  : List Nat

/-- `loadIcon(colorName)`: lowercase and trim the name, try the loaded
icons (BLANC, ROUGE, BLEU, and INCONNU/ERREUR falling back to white
explicitly), then the filesystem candidates, then the white icon. -/
def loadIcon (ic : Icons) (readIconFile : String → Option (List Nat))
    (colorName : String) : List Nat :=
  let colorKey := toLowerStr (trimSpace colorName)
  if colorKey = "blanc" then ic.icnBlanc
  else if colorKey = "rouge" then ic.icnRouge
  else if colorKey = "bleu" then ic.icnBleu
  else if colorKey = "inconnu" ∨ colorKey = "erreur" then ic.icnBlanc
  else
    match readIconFile colorKey with
    | some data => data
    | none => ic.icnBlanc

/-- `updateIconBasedOnColor`: the icon actually displayed — the result
of `loadIcon` when nonempty, the white icon as forced fallback
otherwise.  This composition is the indicator resolution. -/
def updateIconBasedOnColor (ic : Icons) (readIconFile : String → Option (List Nat))
    (todayColor : String) : List Nat :=
  let icon := loadIcon ic readIconFile todayColor
  if icon.length > 0 then icon else ic.icnBlanc

/-! ## Theorems -/

/-- Any `fetch` of one URL leaves the cache lookup of every other URL
unchanged: the only write it can perform is the put of its own URL. -/
theorem fetch_preserves_other_url {B T : Type} (decode : B → Option T) (net : NetOutcome B)
    (now ttl : Int) (c : Cache B) (url urlq : String) (hne : (urlq == url) = false) :
    ((fetch decode net now ttl c url).2).lookup urlq = c.lookup urlq := by
  cases hget : cacheGet c url now with
  | some data =>
    cases hdec : decode data <;> simp [fetch, hget, hdec]
  | none =>
    cases net with
    | transportError => simp [fetch, hget]
    | readError sc =>
      by_cases hsc : sc = 200 <;> simp [fetch, hget, hsc]
    | success sc body =>
      by_cases hsc : sc = 200
      · cases hdec : decode body <;>
          simp [fetch, hget, hsc, hdec, cachePut, List.lookup, hne]
      · simp [fetch, hget, hsc]

/-- Claim C2: a put unconditionally overwrites the entry for its URL,
setting the expiry to `now + ttl`; a get strictly before that expiry
hits and returns exactly the bytes written, and a get at or after that
expiry misses. -/
theorem cache_put_get_roundtrip {B : Type} (c : Cache B) (url : String) (body : B)
    (t ttl tq : Int) :
    (cachePut c url body t ttl).lookup url = some ⟨body, t + ttl⟩ ∧
    cacheGet (cachePut c url body t ttl) url tq =
      if tq < t + ttl then some body else none := by
  constructor
  · simp [cachePut]
  · simp [cacheGet, cachePut]

/-- Claim C3: on a cache miss, a transport failure, a non-200 status,
or a body read failure yields an error and leaves the cache exactly as
it was; the body is decoded before any cache write, and the raw bytes
are written (with expiry `now + ttl`) exactly when decoding
succeeds. -/
theorem fetch_miss_decode_before_cache {B T : Type} (decode : B → Option T)
    (now ttl : Int) (c : Cache B) (url : String)
    (hmiss : cacheGet c url now = none) :
    fetch decode .transportError now ttl c url = (.error .transport, c) ∧
    (∀ sc body, sc ≠ 200 →
      fetch decode (.success sc body) now ttl c url = (.error .status, c)) ∧
    (∀ sc, sc ≠ 200 →
      fetch decode (.readError sc) now ttl c url = (.error .status, c)) ∧
    fetch decode (.readError 200) now ttl c url = (.error .readBody, c) ∧
    (∀ body, decode body = none →
      fetch decode (.success 200 body) now ttl c url = (.error .decodeBody, c)) ∧
    (∀ body v, decode body = some v →
      fetch decode (.success 200 body) now ttl c url = (.ok v, cachePut c url body now ttl)) := by
  refine ⟨?_, ?_, ?_, ?_, ?_, ?_⟩
  · simp [fetch, hmiss]
  · intro sc body hsc
    simp [fetch, hmiss, hsc]
  · intro sc hsc
    simp [fetch, hmiss, hsc]
  · simp [fetch, hmiss]
  · intro body hdec
    simp [fetch, hmiss, hdec]
  · intro body v hdec
    simp [fetch, hmiss, hdec]

/-- Concrete instance of the success conjunct of
`fetch_miss_decode_before_cache`: a miss on the empty cache with a 200
answer carrying codeJour 3 decodes and writes the raw body. -/
theorem fetch_miss_decode_before_cache_witness :
    fetch decodeTempoResponse (.success 200 (.obj [("codeJour", .num 3)])) 0 1800
        (Cache.empty Json) todayURL
      = (.ok ⟨"", 3, ""⟩,
         cachePut (Cache.empty Json) todayURL (.obj [("codeJour", .num 3)]) 0 1800) :=
  (fetch_miss_decode_before_cache decodeTempoResponse 0 1800 (Cache.empty Json) todayURL
      rfl).2.2.2.2.2 (.obj [("codeJour", .num 3)]) ⟨"", 3, ""⟩ (by decide)

/-- Claim C4: on a hit whose cached bytes fail to decode, `fetch`
returns the decode error with the cache untouched, and this holds for
every network outcome — no request is issued and the hit is not
silently retried as a miss. -/
theorem fetch_hit_decode_error {B T : Type} (decode : B → Option T) (net : NetOutcome B)
    (now ttl : Int) (c : Cache B) (url : String) (data : B)
    (hhit : cacheGet c url now = some data) (hdec : decode data = none) :
    fetch decode net now ttl c url = (.error .decodeCache, c) := by
  simp [fetch, hhit, hdec]

/-- Concrete instance of `fetch_hit_decode_error`: a cached document
that is not an object fails to decode and is reported as an error. -/
theorem fetch_hit_decode_error_witness :
    fetch decodeTempoResponse NetOutcome.transportError 5 1800
        [("u", ⟨Json.other, 10⟩)] "u"
      = (.error .decodeCache, [("u", ⟨Json.other, 10⟩)]) :=
  fetch_hit_decode_error decodeTempoResponse NetOutcome.transportError 5 1800
    [("u", ⟨Json.other, 10⟩)] "u" Json.other (by decide) rfl

/-- Claim C10: a hit whose bytes fail to decode leaves the cache
completely unchanged, so every fetch of that URL strictly before the
entry expiry returns the same decode error with the same cache, and
only at or after the expiry does the lookup become a miss. -/
theorem fetch_corrupt_entry_persists {B T : Type} (decode : B → Option T)
    (net₁ net₂ : NetOutcome B) (t₁ t₂ t₃ ttl : Int) (c : Cache B)
    (url : String) (e : CacheEntry B)
    (hlook : c.lookup url = some e) (hdec : decode e.data = none) :
    (t₁ < e.expires → fetch decode net₁ t₁ ttl c url = (.error .decodeCache, c)) ∧
    (t₂ < e.expires → fetch decode net₂ t₂ ttl c url = (.error .decodeCache, c)) ∧
    (e.expires ≤ t₃ → cacheGet c url t₃ = none) := by
  refine ⟨fun h => ?_, fun h => ?_, fun h => ?_⟩
  · simp [fetch, cacheGet, hlook, h, hdec]
  · simp [fetch, cacheGet, hlook, h, hdec]
  · simp [cacheGet, hlook, not_lt.mpr h]

/-- Concrete instance of `fetch_corrupt_entry_persists`: a corrupt
entry expiring at 10 yields the same error with the same cache at
times 3 and 7 and is gone at time 10. -/
theorem fetch_corrupt_entry_persists_witness :
    fetch decodeTempoResponse NetOutcome.transportError 3 1800
        [("u", ⟨Json.other, 10⟩)] "u"
      = (.error .decodeCache, [("u", ⟨Json.other, 10⟩)]) ∧
    fetch decodeTempoResponse (NetOutcome.success 200 Json.other) 7 1800
        [("u", ⟨Json.other, 10⟩)] "u"
      = (.error .decodeCache, [("u", ⟨Json.other, 10⟩)]) ∧
    cacheGet [("u", ⟨Json.other, 10⟩)] "u" 10 = none := by
  have h := fetch_corrupt_entry_persists decodeTempoResponse NetOutcome.transportError
    (NetOutcome.success 200 Json.other) 3 7 10 1800 [("u", ⟨Json.other, 10⟩)] "u"
    ⟨Json.other, 10⟩ (by decide) rfl
  exact ⟨h.1 (by decide), h.2.1 (by decide), h.2.2 (by decide)⟩

/-- Claim C1 counterexample: with the today fetch failing on a
transport error while the tomorrow query would answer 200 with a
decodable body (codeJour 3), the refresh leaves TomorrowColor at its
stale previous value BLEU instead of updating it, and writes no cache
entry for the tomorrow URL — the tomorrow fetch was not performed,
contrary to the claim. -/
theorem updateColors_today_failure_cex :
    (updateColorsRun .transportError (.success 200 (.obj [("codeJour", .num 3)])) 0 1800
        (Cache.empty Json) { Data.initial with TomorrowColor := "BLEU" }).1.TomorrowColor
      = "BLEU" ∧
    (updateColorsRun .transportError (.success 200 (.obj [("codeJour", .num 3)])) 0 1800
        (Cache.empty Json) { Data.initial with TomorrowColor := "BLEU" }).1.TodayColor
      = "ERREUR" ∧
    ((updateColorsRun .transportError (.success 200 (.obj [("codeJour", .num 3)])) 0 1800
        (Cache.empty Json) { Data.initial with TomorrowColor := "BLEU" }).2).lookup tomorrowURL
      = none := by
  decide

/-- Claim C1 as amended: a failure of the today fetch sets TodayColor
to ERREUR and returns early — the tomorrow fetch is not performed
(the final cache is exactly the one the today fetch left) and
TomorrowColor keeps its previous value; a failure of the tomorrow
fetch leaves the already-written TodayColor in place and sets only
TomorrowColor to ERREUR; and isolation does hold between the two
concurrent units: the tariff updater never touches the color fields
and the colors updater never touches the tariff fields. -/
theorem updateColors_failure_isolation (netToday netTomorrow : NetOutcome Json)
    (now ttl : Int) (c : Cache Json) (d : Data) :
    (∀ err c₁, fetch decodeTempoResponse netToday now ttl c todayURL = (.error err, c₁) →
      updateColorsRun netToday netTomorrow now ttl c d
        = ({ d with TodayColor := "ERREUR" }, c₁)) ∧
    (∀ today c₁ err c₂,
      fetch decodeTempoResponse netToday now ttl c todayURL = (.ok today, c₁) →
      fetch decodeTempoResponse netTomorrow now ttl c₁ tomorrowURL = (.error err, c₂) →
      updateColorsRun netToday netTomorrow now ttl c d
        = ({ d with TodayColor := codeToColor today.CodeJour, TomorrowColor := "ERREUR" }, c₂)) ∧
    (∀ nowR : Except FetchError NowResponse,
      (updateCurrentTarif nowR d).TodayColor = d.TodayColor ∧
      (updateCurrentTarif nowR d).TomorrowColor = d.TomorrowColor) ∧
    (updateColorsRun netToday netTomorrow now ttl c d).1.CurrentTarif = d.CurrentTarif ∧
    (updateColorsRun netToday netTomorrow now ttl c d).1.TarifLib = d.TarifLib := by
  refine ⟨?_, ?_, ?_, ?_, ?_⟩
  · intro err c₁ h
    simp [updateColorsRun, h]
  · intro today c₁ err c₂ h₁ h₂
    simp [updateColorsRun, h₁, h₂]
  · intro nowR
    cases nowR <;> simp [updateCurrentTarif]
  · rcases h₁ : fetch decodeTempoResponse netToday now ttl c todayURL with ⟨r₁, c₁⟩
    cases r₁ with
    | error e => simp [updateColorsRun, h₁]
    | ok today =>
      rcases h₂ : fetch decodeTempoResponse netTomorrow now ttl c₁ tomorrowURL with ⟨r₂, c₂⟩
      cases r₂ <;> simp [updateColorsRun, h₁, h₂]
  · rcases h₁ : fetch decodeTempoResponse netToday now ttl c todayURL with ⟨r₁, c₁⟩
    cases r₁ with
    | error e => simp [updateColorsRun, h₁]
    | ok today =>
      rcases h₂ : fetch decodeTempoResponse netTomorrow now ttl c₁ tomorrowURL with ⟨r₂, c₂⟩
      cases r₂ <;> simp [updateColorsRun, h₁, h₂]

/-- Concrete instance of the early-return conjunct of
`updateColors_failure_isolation` on the empty cache. -/
theorem updateColors_failure_isolation_witness :
    updateColorsRun .transportError .transportError 0 1800 (Cache.empty Json) Data.initial
      = ({ Data.initial with TodayColor := "ERREUR" }, Cache.empty Json) :=
  (updateColors_failure_isolation .transportError .transportError 0 1800 (Cache.empty Json)
      Data.initial).1 FetchError.transport (Cache.empty Json) rfl

/-- Claim C5: the indicator resolution is total and deterministic on
the color enum: BLEU, BLANC, ROUGE map to the blue, white and red
icons, and INCONNU and ERREUR map to the safe default white icon, for
every state of the filesystem fallback.  The hypotheses record that
the three startup icons are nonempty, which `mustAsset` guarantees by
panicking otherwise. -/
theorem resolveIndicator_total (ic : Icons) (readIconFile : String → Option (List Nat))
    (hblanc : 0 < ic.icnBlanc.length) (hrouge : 0 < ic.icnRouge.length)
    (hbleu : 0 < ic.icnBleu.length) :
    updateIconBasedOnColor ic readIconFile "BLEU" = ic.icnBleu ∧
    updateIconBasedOnColor ic readIconFile "BLANC" = ic.icnBlanc ∧
    updateIconBasedOnColor ic readIconFile "ROUGE" = ic.icnRouge ∧
    updateIconBasedOnColor ic readIconFile "INCONNU" = ic.icnBlanc ∧
    updateIconBasedOnColor ic readIconFile "ERREUR" = ic.icnBlanc := by
  have e₁ : toLowerStr (trimSpace "BLEU") = "bleu" := by decide
  have e₂ : toLowerStr (trimSpace "BLANC") = "blanc" := by decide
  have e₃ : toLowerStr (trimSpace "ROUGE") = "rouge" := by decide
  have e₄ : toLowerStr (trimSpace "INCONNU") = "inconnu" := by decide
  have e₅ : toLowerStr (trimSpace "ERREUR") = "erreur" := by decide
  refine ⟨?_, ?_, ?_, ?_, ?_⟩ <;>
    simp [updateIconBasedOnColor, loadIcon, e₁, e₂, e₃, e₄, e₅, hblanc, hrouge, hbleu]

/-- Concrete instance of `resolveIndicator_total` with nonempty icon
bytes and an empty filesystem. -/
theorem resolveIndicator_total_witness :
    updateIconBasedOnColor ⟨[1], [2], [3]⟩ (fun _ => none) "BLEU" = [3] ∧
    updateIconBasedOnColor ⟨[1], [2], [3]⟩ (fun _ => none) "INCONNU" = [1] ∧
    updateIconBasedOnColor ⟨[1], [2], [3]⟩ (fun _ => none) "ERREUR" = [1] := by
  have h := resolveIndicator_total ⟨[1], [2], [3]⟩ (fun _ => none)
    (by decide) (by decide) (by decide)
  exact ⟨h.1, h.2.2.2.1, h.2.2.2.2⟩

/-- Claim C6: each scheduler cycle recomputes the wait from the
current wall-clock time as next local midnight minus now: in general
`86400 - sod` seconds, hence one second at 23:59:59 (sod 86399) and a
full day of 86400 seconds at exactly midnight (sod 0), absent DST
changes. -/
theorem waitDuration_recompute (t : LocalTime) :
    waitDuration t = secondsPerDay - t.sod ∧
    (t.sod = 86399 → waitDuration t = 1) ∧
    (t.sod = 0 → waitDuration t = 86400) := by
  refine ⟨?_, fun h => ?_, fun h => ?_⟩ <;>
    simp only [waitDuration, nextMidnight, LocalTime.toSeconds, secondsPerDay] <;> omega

/-- Concrete instance of `waitDuration_recompute` at 23:59:59 and at
exactly midnight. -/
theorem waitDuration_recompute_witness :
    waitDuration ⟨0, 86399⟩ = 1 ∧ waitDuration ⟨7, 0⟩ = 86400 :=
  ⟨(waitDuration_recompute ⟨0, 86399⟩).2.1 rfl,
   (waitDuration_recompute ⟨7, 0⟩).2.2 rfl⟩

/-- Claim C7: when the tariff fetch fails, the refresh sets
CurrentTarif to 0 and TarifLib to Erreur, and this path leaves
TodayColor and TomorrowColor unchanged. -/
theorem updateCurrentTarif_timeout_frame (err : FetchError) (d : Data) :
    (updateCurrentTarif (.error err) d).CurrentTarif = 0 ∧
    (updateCurrentTarif (.error err) d).TarifLib = "Erreur" ∧
    (updateCurrentTarif (.error err) d).TodayColor = d.TodayColor ∧
    (updateCurrentTarif (.error err) d).TomorrowColor = d.TomorrowColor := by
  simp [updateCurrentTarif]

/-- Claim C8: `updateData` always terminates and returns, for every
combination of fetch outcomes: from any state in which `wg.Wait` has
not yet returned some unit is still enabled (no deadlock), both
two-step interleavings of the two lock-holding writers run to the
state where both units have called Done, and the two interleavings
publish the same shared state. -/
theorem updateData_always_terminates (todayR tomorrowR : Except FetchError TempoResponse)
    (nowR : Except FetchError NowResponse) (d : Data) :
    (∀ s : RunState, wgDone s = false →
      (stepColors todayR tomorrowR s).isSome ∨ (stepTarif nowR s).isSome) ∧
    (∃ s₁ s₂ : RunState,
      stepChoice todayR tomorrowR nowR true (RunState.init d) = some s₁ ∧
      stepChoice todayR tomorrowR nowR false s₁ = some s₂ ∧
      wgDone s₂ = true ∧ s₂.d = updateData true todayR tomorrowR nowR d) ∧
    (∃ s₁ s₂ : RunState,
      stepChoice todayR tomorrowR nowR false (RunState.init d) = some s₁ ∧
      stepChoice todayR tomorrowR nowR true s₁ = some s₂ ∧
      wgDone s₂ = true ∧ s₂.d = updateData false todayR tomorrowR nowR d) ∧
    updateData true todayR tomorrowR nowR d = updateData false todayR tomorrowR nowR d := by
  refine ⟨?_, ?_, ?_, ?_⟩
  · intro s hs
    rcases s with ⟨cs, ts, sd⟩
    cases cs <;> cases ts <;> simp [stepColors, stepTarif, wgDone] at hs ⊢
  · exact ⟨_, _, rfl, rfl, rfl, rfl⟩
  · exact ⟨_, _, rfl, rfl, rfl, rfl⟩
  · cases todayR <;> cases tomorrowR <;> cases nowR <;> rfl

/-- Concrete instance of the deadlock-freedom conjunct of
`updateData_always_terminates`: with all three fetches failing, a step
is enabled at the initial state. -/
theorem updateData_always_terminates_witness :
    (stepColors (.error .transport) (.error .transport)
        (RunState.init Data.initial)).isSome ∨
    (stepTarif (.error .transport) (RunState.init Data.initial)).isSome :=
  (updateData_always_terminates (.error .transport) (.error .transport)
      (.error .transport) Data.initial).1 (RunState.init Data.initial) (by decide)

/-- Claim C9: from the empty cache, if the today query answers 200
with a body whose codeJour is 3, the refresh sets TodayColor to ROUGE
and the cache holds exactly that raw body for the today URL with
expiry `now + ttl`, whatever the tomorrow query does. -/
theorem refresh_rouge_scenario (netTomorrow : NetOutcome Json) (now ttl : Int) (d : Data) :
    (updateColorsRun (.success 200 (.obj [("codeJour", .num 3)])) netTomorrow now ttl
        (Cache.empty Json) d).1.TodayColor = "ROUGE" ∧
    ((updateColorsRun (.success 200 (.obj [("codeJour", .num 3)])) netTomorrow now ttl
        (Cache.empty Json) d).2).lookup todayURL
      = some ⟨.obj [("codeJour", .num 3)], now + ttl⟩ := by
  have hdec : decodeTempoResponse (.obj [("codeJour", .num 3)])
      = some ⟨"", 3, ""⟩ := by decide
  have hcol : codeToColor 3 = "ROUGE" := by decide
  have htoday : fetch decodeTempoResponse (.success 200 (.obj [("codeJour", .num 3)]))
      now ttl (Cache.empty Json) todayURL
      = (.ok ⟨"", 3, ""⟩,
         cachePut (Cache.empty Json) todayURL (.obj [("codeJour", .num 3)]) now ttl) := by
    simp [fetch, cacheGet, Cache.empty, hdec]
  rcases hfetch : fetch decodeTempoResponse netTomorrow now ttl
      (cachePut (Cache.empty Json) todayURL (.obj [("codeJour", .num 3)]) now ttl) tomorrowURL
    with ⟨r₂, c₂⟩
  have hc₂ : c₂.lookup todayURL
      = (cachePut (Cache.empty Json) todayURL
          (.obj [("codeJour", .num 3)]) now ttl).lookup todayURL := by
    have hpres := fetch_preserves_other_url decodeTempoResponse netTomorrow now ttl
      (cachePut (Cache.empty Json) todayURL (.obj [("codeJour", .num 3)]) now ttl)
      tomorrowURL todayURL (by decide)
    rw [hfetch] at hpres
    exact hpres
  constructor
  · cases r₂ <;> simp [updateColorsRun, htoday, hfetch, hcol]
  · cases r₂ <;>
    · simp only [updateColorsRun, htoday, hfetch]
      rw [hc₂]
      simp [cachePut]

end TempoEdf
